import Mathlib

/-!
Verification development for the prism-app authorization gateway.

The repository declares the external action surface in
src/gateway/src/agent-core/type-stubs.py: eleven typed action signatures
grouped into four trust tiers. The gateway core (Static Validator, Tier
Policy Engine, Execution Gatekeeper) is specified in spec.md; definitions
below that embed it are marked as modelled from the spec.
-/

namespace Prism

/-- Trust tier of an action, from the tier sections of type-stubs.py. -/
inductive Tier
  | observational
  | advisory
  | active
  | critical
deriving DecidableEq, Repr

/-- Semantic parameter types appearing in the stub signatures
(str, float, int, bool, Dict, List, Any). -/
inductive SemType
  | string
  | float
  | int
  | boolean
  | dict
  | list
  | any
deriving DecidableEq, Repr

/-- Runtime argument values supplied with a proposed call. Python floats are
modelled as rationals; None is a distinguished value. -/
inductive Value
  | str (s : String)
  | int (n : Int)
  | float (q : Rat)
  | bool (b : Bool)
  | dict (entries : List (String × Value))
  | list (elems : List Value)
  | none

/-- Declared parameter of an action signature: name, semantic type,
required flag, and optional declared default. -/
structure Param where
  name : String
  type : SemType
  required : Bool
  default : Option Value

/-- Required parameter with no default. -/
def reqP (n : String) (t : SemType) : Param :=
  { name := n, type := t, required := true, default := Option.none }

/-- Optional parameter with a declared default. -/
def optP (n : String) (t : SemType) (d : Value) : Param :=
  { name := n, type := t, required := false, default := Option.some d }

/-- Declared contract of one external action: unique name, ordered
parameter list, trust tier. -/
structure ActionSignature where
  name : String
  params : List Param
  tier : Tier

/-- The fixed declaration set, transcribed from
src/gateway/src/agent-core/type-stubs.py: four OBSERVATIONAL, three
ADVISORY, two ACTIVE and two CRITICAL actions, in source order. -/
def declarationSet : List ActionSignature := [
  { name := "calculate_ytd",
    params := [reqP "user_id" SemType.string],
    tier := Tier.observational },
  { name := "get_thresholds",
    params := [reqP "user_id" SemType.string],
    tier := Tier.observational },
  { name := "query_tax_law",
    params := [reqP "question" SemType.string],
    tier := Tier.observational },
  { name := "get_active_facts",
    params := [reqP "user_id" SemType.string, optP "layer" SemType.string Value.none],
    tier := Tier.observational },
  { name := "store_atomic_fact",
    params := [reqP "user_id" SemType.string, reqP "layer" SemType.string,
               reqP "entity_name" SemType.string, reqP "fact_content" SemType.any,
               optP "confidence" SemType.float (Value.float 1)],
    tier := Tier.advisory },
  { name := "create_optimization_hint",
    params := [reqP "user_id" SemType.string, reqP "hint_type" SemType.string,
               reqP "details" SemType.dict],
    tier := Tier.advisory },
  { name := "auto_tag_transaction",
    params := [reqP "user_id" SemType.string, reqP "transaction_id" SemType.string,
               reqP "suggested_category" SemType.string],
    tier := Tier.advisory },
  { name := "reclassify_transaction",
    params := [reqP "user_id" SemType.string, reqP "transaction_id" SemType.string,
               reqP "new_category" SemType.string, reqP "reason" SemType.string],
    tier := Tier.active },
  { name := "create_project_draft",
    params := [reqP "user_id" SemType.string, reqP "project_name" SemType.string,
               reqP "estimated_revenue" SemType.float],
    tier := Tier.active },
  { name := "file_vat_registration",
    params := [reqP "user_id" SemType.string, reqP "business_details" SemType.dict],
    tier := Tier.critical },
  { name := "submit_tax_return",
    params := [reqP "user_id" SemType.string, reqP "year" SemType.int,
               reqP "return_data" SemType.dict],
    tier := Tier.critical }
]

/-- Signature Registry: immutable table of registered action signatures. -/
structure Registry where
  sigs : List ActionSignature

/-- Look up a signature by action name. -/
def Registry.lookup (r : Registry) (n : String) : Option ActionSignature :=
  r.sigs.find? (fun s => s.name == n)

/-- Registration error raised on a duplicate action name. -/
inductive RegistryError
  | duplicateAction (name : String)
deriving DecidableEq, Repr

/-- Modelled from the spec: section 4.1 register, failing with
DuplicateAction when the name already exists. The concrete registration
routine is absent from src; only the declaration set is present. -/
def register (r : Registry) (s : ActionSignature) : Except RegistryError Registry :=
  match r.lookup s.name with
  | Option.some _ => Except.error (RegistryError.duplicateAction s.name)
  | Option.none => Except.ok (Registry.mk (r.sigs ++ [s]))

/-- Modelled from the spec: the registry is built once at startup from the
fixed declaration set. -/
def buildRegistry (ds : List ActionSignature) : Except RegistryError Registry :=
  ds.foldl (fun acc s => acc.bind (fun r => register r s)) (Except.ok (Registry.mk []))

/-- The registry holding exactly the stub declaration set. -/
def theRegistry : Registry := Registry.mk declarationSet

/-- A call proposed by the agent: action name, supplied argument bindings,
originating session, timestamp (spec section 3). -/
structure ProposedCall where
  action_name : String
  arguments : List (String × Value)
  session_id : String
  timestamp : Nat

/-- Validation mismatch cases from the spec data model (section 3). -/
inductive ValidationError
  | unknownAction (name : String)
  | missingParameter (name : String)
  | typeMismatch (name : String) (expected : SemType) (actual : SemType)
  | unexpectedParameter (name : String)
deriving DecidableEq, Repr

/-- Result of static validation: Valid with normalized arguments and the
signature tier, or Invalid with the list of mismatches (spec section 3). -/
inductive ValidationResult
  | valid (normalized : List (String × Value)) (tier : Tier)
  | invalid (errors : List ValidationError)

/-- Semantic type of a supplied value. -/
def valueType : Value → SemType
  | Value.str _ => SemType.string
  | Value.int _ => SemType.int
  | Value.float _ => SemType.float
  | Value.bool _ => SemType.boolean
  | Value.dict _ => SemType.dict
  | Value.list _ => SemType.list
  | Value.none => SemType.any

/-- Modelled from the spec: semantic type check of section 4.2 step 2. Any
accepts every value; an integer counts as numeric for a float parameter. -/
def matchesType (v : Value) (t : SemType) : Bool :=
  match t with
  | SemType.any => true
  | SemType.float => valueType v == SemType.float || valueType v == SemType.int
  | _ => valueType v == t

/-- First binding for an argument name among the supplied arguments. -/
def lookupArg (args : List (String × Value)) (n : String) : Option Value :=
  (args.find? (fun a => a.fst == n)).map Prod.snd

/-- Modelled from the spec: section 4.2 step 2, collecting MissingParameter
and TypeMismatch errors over the declared parameter list in order. The
validator itself is absent from src; only the declarations it checks
against are present. -/
def paramErrors (params : List Param) (args : List (String × Value)) : List ValidationError :=
  match params with
  | [] => []
  | p :: rest =>
    match lookupArg args p.name with
    | Option.none =>
      if p.required then ValidationError.missingParameter p.name :: paramErrors rest args
      else paramErrors rest args
    | Option.some v =>
      if matchesType v p.type then paramErrors rest args
      else ValidationError.typeMismatch p.name p.type (valueType v) :: paramErrors rest args

/-- Modelled from the spec: section 4.2 step 3, closed-world check flagging
every supplied argument whose name is not declared. -/
def unexpectedErrors (params : List Param) (args : List (String × Value)) : List ValidationError :=
  match args with
  | [] => []
  | a :: rest =>
    match params.find? (fun p => p.name == a.fst) with
    | Option.some _ => unexpectedErrors params rest
    | Option.none => ValidationError.unexpectedParameter a.fst :: unexpectedErrors params rest

/-- Modelled from the spec: section 4.2 steps 4 and 5, the normalized
argument mapping in declared parameter order, with declared defaults filled
in for omitted optional parameters. -/
def normalizeArgs (params : List Param) (args : List (String × Value)) : List (String × Value) :=
  match params with
  | [] => []
  | p :: rest =>
    match lookupArg args p.name with
    | Option.some v => (p.name, v) :: normalizeArgs rest args
    | Option.none =>
      match p.default with
      | Option.some d => (p.name, d) :: normalizeArgs rest args
      | Option.none => normalizeArgs rest args

/-- Modelled from the spec: the Static Validator of section 4.2. Unknown
action fails immediately; otherwise parameter and closed-world errors are
collected, and on success the normalized mapping is returned together with
the registered signature tier. -/
def validate (call : ProposedCall) (reg : Registry) : ValidationResult :=
  match reg.lookup call.action_name with
  | Option.none => ValidationResult.invalid [ValidationError.unknownAction call.action_name]
  | Option.some sig =>
    let errs := paramErrors sig.params call.arguments ++ unexpectedErrors sig.params call.arguments
    if errs.isEmpty then ValidationResult.valid (normalizeArgs sig.params call.arguments) sig.tier
    else ValidationResult.invalid errs

/-- Authorization request state (spec section 3). -/
inductive ReqState
  | pending
  | approved
  | denied
  | expired
deriving DecidableEq, Repr

/-- A state is terminal once it has left PENDING. -/
def ReqState.terminal : ReqState → Bool
  | ReqState.pending => false
  | _ => true

/-- Multi-factor proof supplied with a resolution: token, issue time, and
the call id it is bound to (spec sections 4.3 and 6; call ids are the
gatekeeper-assigned request identifiers). -/
structure MfaProof where
  token : String
  issued_at : Nat
  bound_call : Nat
deriving DecidableEq, Repr

/-- Modelled from the spec: the MFA validity window, fixed configuration
the spec leaves to the implementer (section 9 open question). -/
def mfaValidityWindow : Nat := 300

/-- An MFA proof is fresh at a given time when it is no older than the
validity window. -/
def mfaFresh (p : MfaProof) (now : Nat) : Bool :=
  now ≤ p.issued_at + mfaValidityWindow

/-- An MFA proof is bound to a call when it names that call id. -/
def mfaBound (p : MfaProof) (cid : Nat) : Bool :=
  p.bound_call == cid

/-- Modelled from the spec: AuthorizationRequest of section 3 — call
reference, tier, current state, MFA proof once verified, bookkeeping
fields. The id doubles as the call id of the submitted call. -/
structure AuthRequest where
  id : Nat
  call : ProposedCall
  norm : List (String × Value)
  tier : Tier
  state : ReqState
  mfaProof : Option MfaProof
  created_at : Nat
  resolved_by : Option String
  resolved_at : Option Nat

/-- Terminal failure reasons from the spec error taxonomy (section 7). -/
inductive FailReason
  | approvalDenied
  | approvalExpired
  | staleAuthorization
  | cancelledBySession
  | actionFailed
  | actionTimeout
  | concurrentFactConflict
deriving DecidableEq, Repr

/-- Status of a recorded ActionOutcome. -/
inductive OutcomeStatus
  | completed
  | failed (reason : FailReason)
deriving DecidableEq, Repr

/-- Modelled from the spec: ActionOutcome of section 3, the immutable
terminal record of the pipeline for one call. -/
structure ActionOutcome where
  call_id : Nat
  action_name : String
  status : OutcomeStatus
  effective_at : Nat
deriving DecidableEq, Repr

/-- Modelled from the spec: Execution Gatekeeper state — the request table
of the Tier Policy Engine, recorded outcomes, the ids dispatched to the
external implementation, the advisory audit trail, and the id counter. -/
structure GateState where
  requests : List AuthRequest
  outcomes : List ActionOutcome
  dispatched : List Nat
  audit : List Nat
  next_id : Nat

/-- The empty gatekeeper state at process start. -/
def gs_init : GateState :=
  { requests := [], outcomes := [], dispatched := [], audit := [], next_id := 0 }

/-- Response of submit: terminal rejection, synchronous completion, or a
pending handle naming the authorization request (spec section 6). -/
inductive SubmitResponse
  | rejected (errors : List ValidationError)
  | completed (call_id : Nat)
  | pending (request_id : Nat) (tier : Tier)

/-- A resolution decision (spec section 6). -/
inductive Decision
  | approve
  | deny
deriving DecidableEq, Repr

/-- Response to a resolution signal (spec section 6). -/
inductive ResolveResponse
  | accepted
  | alreadyResolved
  | invalidProof
  | unknownRequest
deriving DecidableEq, Repr

/-- First request with the given id in the request table. -/
def findRequest (gs : GateState) (rid : Nat) : Option AuthRequest :=
  gs.requests.find? (fun r => r.id == rid)

/-- Apply an id-preserving update to every request with the given id. -/
def updateRequest (gs : GateState) (rid : Nat) (f : AuthRequest → AuthRequest) : GateState :=
  { gs with requests := gs.requests.map (fun r => if r.id == rid then f r else r) }

/-- Append a failed outcome for a request. -/
def recordFailure (gs : GateState) (now : Nat) (r : AuthRequest) (reason : FailReason) : GateState :=
  { gs with outcomes := gs.outcomes ++
      [{ call_id := r.id, action_name := r.call.action_name,
         status := OutcomeStatus.failed reason, effective_at := now }] }

/-- Whether an outcome has already been recorded for a call id. -/
def hasOutcome (gs : GateState) (cid : Nat) : Bool :=
  gs.outcomes.any (fun o => o.call_id == cid)

/-- Modelled from the spec: synchronous dispatch of a cleared call
(section 4.4 step 3). The external action implementation is out of scope
and modelled as acknowledging success; advisory calls append an audit
record before dispatch. -/
def dispatchNow (gs : GateState) (now : Nat) (call : ProposedCall) (tier : Tier) :
    SubmitResponse × GateState :=
  let cid := gs.next_id
  (SubmitResponse.completed cid,
   { gs with
     next_id := cid + 1,
     audit := if tier == Tier.advisory then gs.audit ++ [cid] else gs.audit,
     dispatched := gs.dispatched ++ [cid],
     outcomes := gs.outcomes ++
       [{ call_id := cid, action_name := call.action_name,
          status := OutcomeStatus.completed, effective_at := now }] })

/-- Modelled from the spec: creation of a PENDING AuthorizationRequest for
ACTIVE and CRITICAL calls (section 4.3). -/
def createPending (gs : GateState) (now : Nat) (call : ProposedCall)
    (norm : List (String × Value)) (tier : Tier) : SubmitResponse × GateState :=
  let rid := gs.next_id
  (SubmitResponse.pending rid tier,
   { gs with
     next_id := rid + 1,
     requests := gs.requests ++
       [{ id := rid, call := call, norm := norm, tier := tier,
          state := ReqState.pending, mfaProof := Option.none,
          created_at := now, resolved_by := Option.none, resolved_at := Option.none }] })

/-- Modelled from the spec: the Execution Gatekeeper submit pipeline of
section 4.4 — validate first, reject on failure without touching
authorization or dispatch, clear OBSERVATIONAL and ADVISORY immediately,
suspend ACTIVE and CRITICAL behind a pending request. -/
def submit (gs : GateState) (now : Nat) (call : ProposedCall) :
    SubmitResponse × GateState :=
  match validate call theRegistry with
  | ValidationResult.invalid errs => (SubmitResponse.rejected errs, gs)
  | ValidationResult.valid norm tier =>
    match tier with
    | Tier.observational => dispatchNow gs now call tier
    | Tier.advisory => dispatchNow gs now call tier
    | Tier.active => createPending gs now call norm tier
    | Tier.critical => createPending gs now call norm tier

/-- Modelled from the spec: resolution of an authorization request
(sections 4.3 and 6). A terminal request reports AlreadyResolved and is
left unchanged; deny records ApprovalDenied; approval of a CRITICAL
request demands an MFA proof bound to the call id and fresh at resolution
time, otherwise InvalidProof and the request stays PENDING. -/
def resolve (gs : GateState) (now : Nat) (rid : Nat) (decision : Decision)
    (resolver : String) (proof : Option MfaProof) : ResolveResponse × GateState :=
  match findRequest gs rid with
  | Option.none => (ResolveResponse.unknownRequest, gs)
  | Option.some r =>
    if r.state == ReqState.pending then
      match decision with
      | Decision.deny =>
        (ResolveResponse.accepted,
         recordFailure
           (updateRequest gs rid (fun q =>
             { q with state := ReqState.denied,
                      resolved_by := Option.some resolver,
                      resolved_at := Option.some now }))
           now r FailReason.approvalDenied)
      | Decision.approve =>
        match r.tier with
        | Tier.critical =>
          match proof with
          | Option.none => (ResolveResponse.invalidProof, gs)
          | Option.some p =>
            if mfaBound p r.id && mfaFresh p now then
              (ResolveResponse.accepted,
               updateRequest gs rid (fun q =>
                 { q with state := ReqState.approved,
                          mfaProof := Option.some p,
                          resolved_by := Option.some resolver,
                          resolved_at := Option.some now }))
            else (ResolveResponse.invalidProof, gs)
        | _ =>
          (ResolveResponse.accepted,
           updateRequest gs rid (fun q =>
             { q with state := ReqState.approved,
                      resolved_by := Option.some resolver,
                      resolved_at := Option.some now }))
    else (ResolveResponse.alreadyResolved, gs)

/-- Modelled from the spec: once a request resolves, the Gatekeeper
completes pipeline step 3 at dispatch time (section 4.4 step 4). An
APPROVED CRITICAL request whose MFA proof is no longer fresh at dispatch
time fails closed with StaleAuthorization and is not dispatched; an
approved CRITICAL request with no stored proof also fails closed. -/
def completeDispatch (gs : GateState) (now : Nat) (rid : Nat) : GateState :=
  match findRequest gs rid with
  | Option.none => gs
  | Option.some r =>
    if r.state == ReqState.approved && !(hasOutcome gs rid) then
      match r.tier, r.mfaProof with
      | Tier.critical, Option.some p =>
        if mfaFresh p now then
          { gs with
            dispatched := gs.dispatched ++ [r.id],
            outcomes := gs.outcomes ++
              [{ call_id := r.id, action_name := r.call.action_name,
                 status := OutcomeStatus.completed, effective_at := now }] }
        else
          { gs with outcomes := gs.outcomes ++
              [{ call_id := r.id, action_name := r.call.action_name,
                 status := OutcomeStatus.failed FailReason.staleAuthorization,
                 effective_at := now }] }
      | Tier.critical, Option.none =>
        { gs with outcomes := gs.outcomes ++
            [{ call_id := r.id, action_name := r.call.action_name,
               status := OutcomeStatus.failed FailReason.staleAuthorization,
               effective_at := now }] }
      | _, _ =>
        { gs with
          dispatched := gs.dispatched ++ [r.id],
          outcomes := gs.outcomes ++
            [{ call_id := r.id, action_name := r.call.action_name,
               status := OutcomeStatus.completed, effective_at := now }] }
    else gs

/-- Modelled from the spec: timeout of a PENDING request to EXPIRED,
treated as denial with ApprovalExpired (section 4.3). -/
def expireRequest (gs : GateState) (now : Nat) (rid : Nat) : GateState :=
  match findRequest gs rid with
  | Option.none => gs
  | Option.some r =>
    if r.state == ReqState.pending then
      recordFailure
        (updateRequest gs rid (fun q =>
          { q with state := ReqState.expired, resolved_at := Option.some now }))
        now r FailReason.approvalExpired
    else gs

/-- Modelled from the spec: session cancellation of a PENDING request,
terminal denial with CancelledBySession (section 5). -/
def cancelRequest (gs : GateState) (now : Nat) (rid : Nat) (sess : String) : GateState :=
  match findRequest gs rid with
  | Option.none => gs
  | Option.some r =>
    if r.state == ReqState.pending then
      recordFailure
        (updateRequest gs rid (fun q =>
          { q with state := ReqState.denied,
                   resolved_by := Option.some sess,
                   resolved_at := Option.some now }))
        now r FailReason.cancelledBySession
    else gs

/-- One externally triggered step of the gatekeeper. -/
inductive GateOp
  | submitOp (now : Nat) (call : ProposedCall)
  | resolveOp (now : Nat) (rid : Nat) (d : Decision) (resolver : String) (proof : Option MfaProof)
  | completeOp (now : Nat) (rid : Nat)
  | expireOp (now : Nat) (rid : Nat)
  | cancelOp (now : Nat) (rid : Nat) (sess : String)

/-- Apply one gatekeeper step to the state. -/
def applyOp (gs : GateState) : GateOp → GateState
  | GateOp.submitOp now c => (submit gs now c).snd
  | GateOp.resolveOp now rid d resolver proof => (resolve gs now rid d resolver proof).snd
  | GateOp.completeOp now rid => completeDispatch gs now rid
  | GateOp.expireOp now rid => expireRequest gs now rid
  | GateOp.cancelOp now rid sess => cancelRequest gs now rid sess

/-- Run a sequence of gatekeeper steps from a state. -/
def runOps (ops : List GateOp) (gs : GateState) : GateState :=
  ops.foldl applyOp gs

/-- Fact identity at the fact-store boundary: (tenant id, layer, entity
name), as in spec section 3 and the store_atomic_fact supersede semantics. -/
structure FactKey where
  tenant : String
  layer : String
  entity_name : String
deriving DecidableEq, Repr

/-- Modelled from the spec: state of the per-key dispatch serializer of
section 4.4 step 5 — the dispatches currently in flight, the calls
rejected with ConcurrentFactConflict, and the completed dispatches. -/
structure FactGateState where
  in_flight : List (Nat × FactKey)
  rejected : List (Nat × FactKey)
  completed : List Nat

/-- The serializer state with nothing in flight. -/
def factGateInit : FactGateState :=
  { in_flight := [], rejected := [], completed := [] }

/-- Begin or end of one mutating dispatch. -/
inductive FactGateEvent
  | beginDispatch (cid : Nat) (key : FactKey)
  | endDispatch (cid : Nat)

/-- Modelled from the spec: one step of the per-key serializer. The chosen
policy for a conflicting second call is reject with
ConcurrentFactConflict, applied to every conflict (section 9 leaves the
serialize-or-reject choice to the implementer; section 8 requires one
policy applied consistently). A dispatch may begin only when no dispatch
on the same key is in flight. -/
def stepFactGate (s : FactGateState) : FactGateEvent → FactGateState
  | FactGateEvent.beginDispatch cid key =>
    if s.in_flight.any (fun q => q.snd == key) then
      { s with rejected := s.rejected ++ [(cid, key)] }
    else
      { s with in_flight := (cid, key) :: s.in_flight }
  | FactGateEvent.endDispatch cid =>
    if s.in_flight.any (fun q => q.fst == cid) then
      { s with
        in_flight := s.in_flight.filter (fun q => !(q.fst == cid)),
        completed := s.completed ++ [cid] }
    else s

/-- Run a sequence of serializer events from a state. -/
def runFactGate (evs : List FactGateEvent) (s : FactGateState) : FactGateState :=
  evs.foldl stepFactGate s

/-- Status recorded for a call id, if any outcome exists. -/
def outcomeStatusOf (gs : GateState) (cid : Nat) : Option OutcomeStatus :=
  (gs.outcomes.find? (fun o => o.call_id == cid)).map (fun o => o.status)

/-- Scenario call of spec section 8: reclassify_transaction with the four
required string arguments. -/
def reclassifyCall : ProposedCall :=
  { action_name := "reclassify_transaction",
    arguments := [("user_id", Value.str "t1"), ("transaction_id", Value.str "tx1"),
                  ("new_category", Value.str "travel"), ("reason", Value.str "misfiled")],
    session_id := "s1", timestamp := 0 }

/-- Normalized arguments of the reclassify scenario call. -/
def reclassifyNorm : List (String × Value) :=
  [("user_id", Value.str "t1"), ("transaction_id", Value.str "tx1"),
   ("new_category", Value.str "travel"), ("reason", Value.str "misfiled")]

/-- Gatekeeper state after submitting the reclassify scenario call. -/
def gsReclassify : GateState := (submit gs_init 0 reclassifyCall).snd

/-- Scenario call: reclassify_transaction carrying an undeclared field. -/
def reclassifyExtraCall : ProposedCall :=
  { action_name := "reclassify_transaction",
    arguments := [("user_id", Value.str "t1"), ("transaction_id", Value.str "tx1"),
                  ("new_category", Value.str "travel"), ("reason", Value.str "misfiled"),
                  ("force", Value.bool true)],
    session_id := "s1", timestamp := 0 }

/-- Scenario call: store_atomic_fact with confidence omitted. -/
def storeFactCall : ProposedCall :=
  { action_name := "store_atomic_fact",
    arguments := [("user_id", Value.str "t1"), ("layer", Value.str "area"),
                  ("entity_name", Value.str "vat_status"), ("fact_content", Value.str "registered")],
    session_id := "s1", timestamp := 0 }

/-- Scenario call: get_active_facts with layer omitted. -/
def getFactsCall : ProposedCall :=
  { action_name := "get_active_facts",
    arguments := [("user_id", Value.str "t1")],
    session_id := "s1", timestamp := 0 }

/-- Scenario call: file_vat_registration with both required arguments. -/
def fileVatCall : ProposedCall :=
  { action_name := "file_vat_registration",
    arguments := [("user_id", Value.str "t1"), ("business_details", Value.dict [])],
    session_id := "s1", timestamp := 0 }

/-- Scenario call: file_vat_registration missing business_details. -/
def fileVatMissingCall : ProposedCall :=
  { action_name := "file_vat_registration",
    arguments := [("user_id", Value.str "t1")],
    session_id := "s1", timestamp := 0 }

/-- Scenario call with an action name absent from the registry. -/
def unknownCall : ProposedCall :=
  { action_name := "delete_everything",
    arguments := [("user_id", Value.str "t1")],
    session_id := "s1", timestamp := 0 }

/-- MFA proof bound to call id 0, issued at time 10. -/
def proofC3 : MfaProof :=
  { token := "otp-1", issued_at := 10, bound_call := 0 }

/-- Gatekeeper state with the critical file_vat_registration call submitted
and approved at time 10 with a bound fresh proof. -/
def gsCriticalApproved : GateState :=
  (resolve (submit gs_init 0 fileVatCall).snd 10 0 Decision.approve "op" (Option.some proofC3)).snd

/-- The approved critical request held in gsCriticalApproved. -/
def reqCriticalApproved : AuthRequest :=
  { id := 0, call := fileVatCall,
    norm := [("user_id", Value.str "t1"), ("business_details", Value.dict [])],
    tier := Tier.critical, state := ReqState.approved,
    mfaProof := Option.some proofC3, created_at := 0,
    resolved_by := Option.some "op", resolved_at := Option.some 10 }

/-- A gatekeeper state holding one already-denied request, used to
exercise duplicate resolution. -/
def reqDenied : AuthRequest :=
  { id := 0, call := reclassifyCall, norm := reclassifyNorm,
    tier := Tier.active, state := ReqState.denied,
    mfaProof := Option.none, created_at := 0,
    resolved_by := Option.some "op", resolved_at := Option.some 1 }

/-- State containing only the denied request. -/
def gsDenied : GateState :=
  { requests := [reqDenied], outcomes := [], dispatched := [], audit := [], next_id := 1 }

/-- Registered signature of reclassify_transaction, as in the declaration
set. -/
def reclassifySig : ActionSignature :=
  { name := "reclassify_transaction",
    params := [reqP "user_id" SemType.string, reqP "transaction_id" SemType.string,
               reqP "new_category" SemType.string, reqP "reason" SemType.string],
    tier := Tier.active }

/-- Registered signature of file_vat_registration, as in the declaration
set. -/
def fileVatSig : ActionSignature :=
  { name := "file_vat_registration",
    params := [reqP "user_id" SemType.string, reqP "business_details" SemType.dict],
    tier := Tier.critical }

/-- Registered signature of get_active_facts, as in the declaration set. -/
def getFactsSig : ActionSignature :=
  { name := "get_active_facts",
    params := [reqP "user_id" SemType.string, optP "layer" SemType.string Value.none],
    tier := Tier.observational }

/-- A concrete fact key used in the serializer scenario. -/
def factKeyA : FactKey :=
  { tenant := "t1", layer := "area", entity_name := "vat_status" }

/-- Serializer state with one dispatch in flight on the concrete key. -/
def fgsBusy : FactGateState :=
  { in_flight := [(0, factKeyA)], rejected := [], completed := [] }

/-- Well-formed ids: every request id and recorded outcome call id lies
below the id counter. -/
def wfIds (gs : GateState) : Prop :=
  (∀ r ∈ gs.requests, r.id < gs.next_id) ∧
  (∀ o ∈ gs.outcomes, o.call_id < gs.next_id)

/-- Every APPROVED CRITICAL request reached by lookup stores an MFA proof
bound to its own call id. -/
def approvedCriticalBound (gs : GateState) : Prop :=
  ∀ rid r, findRequest gs rid = Option.some r →
    r.tier = Tier.critical → r.state = ReqState.approved →
    ∃ p, r.mfaProof = Option.some p ∧ mfaBound p r.id = true

/-- No completed ActionOutcome exists for a CRITICAL call whose request is
not APPROVED carrying an MFA proof bound to the call id and fresh at the
outcome time. -/
def criticalCompletedGuard (gs : GateState) : Prop :=
  ∀ o ∈ gs.outcomes, o.status = OutcomeStatus.completed →
    ∀ r, findRequest gs o.call_id = Option.some r → r.tier = Tier.critical →
      r.state = ReqState.approved ∧
      ∃ p, r.mfaProof = Option.some p ∧ mfaBound p r.id = true ∧
        mfaFresh p o.effective_at = true

/-- The gatekeeper safety invariant for the CRITICAL handover workflow. -/
def gateInv (gs : GateState) : Prop :=
  wfIds gs ∧ approvedCriticalBound gs ∧ criticalCompletedGuard gs

/-- A required parameter absent from the supplied arguments always appears
as MissingParameter in the collected parameter errors. -/
theorem mem_paramErrors_missing (params : List Param) (args : List (String × Value))
    (p : Param) (hp : p ∈ params) (hreq : p.required = true)
    (habs : lookupArg args p.name = Option.none) :
    ValidationError.missingParameter p.name ∈ paramErrors params args := by
  induction params with
  | nil => cases hp
  | cons q rest ih =>
    unfold paramErrors
    rcases List.mem_cons.mp hp with h | h
    · subst h
      rw [habs, if_pos hreq]
      exact List.mem_cons_self _ _
    · cases hq : lookupArg args q.name with
      | none =>
        dsimp only
        by_cases hr : q.required = true
        · rw [if_pos hr]; exact List.mem_cons_of_mem _ (ih h)
        · rw [if_neg hr]; exact ih h
      | some v =>
        dsimp only
        by_cases hm : matchesType v q.type = true
        · rw [if_pos hm]; exact ih h
        · rw [if_neg hm]; exact List.mem_cons_of_mem _ (ih h)

/-- A supplied argument whose name is undeclared always appears as
UnexpectedParameter in the closed-world errors. -/
theorem mem_unexpectedErrors (params : List Param) (args : List (String × Value))
    (n : String) (v : Value) (hmem : (n, v) ∈ args)
    (hundecl : params.find? (fun p => p.name == n) = Option.none) :
    ValidationError.unexpectedParameter n ∈ unexpectedErrors params args := by
  induction args with
  | nil => cases hmem
  | cons a rest ih =>
    unfold unexpectedErrors
    rcases List.mem_cons.mp hmem with h | h
    · subst h
      dsimp only
      rw [hundecl]
      exact List.mem_cons_self _ _
    · cases hfind : params.find? (fun p => p.name == a.fst) with
      | some q => exact ih h
      | none => exact List.mem_cons_of_mem _ (ih h)

/-- A declared parameter with a default is always present in the
normalized mapping, carrying the supplied value or, when omitted, the
declared default. -/
theorem mem_normalizeArgs (params : List Param) (args : List (String × Value))
    (p : Param) (d : Value) (hp : p ∈ params) (hd : p.default = Option.some d) :
    (p.name, (lookupArg args p.name).getD d) ∈ normalizeArgs params args := by
  induction params with
  | nil => cases hp
  | cons q rest ih =>
    unfold normalizeArgs
    rcases List.mem_cons.mp hp with h | h
    · subst h
      cases hq : lookupArg args p.name with
      | some v => dsimp only; exact List.mem_cons_self _ _
      | none => dsimp only; rw [hd]; exact List.mem_cons_self _ _
    · cases hq : lookupArg args q.name with
      | some v => dsimp only; exact List.mem_cons_of_mem _ (ih h)
      | none =>
        dsimp only
        cases hqd : q.default with
        | some d2 => exact List.mem_cons_of_mem _ (ih h)
        | none => exact ih h

/-- On a successful validation the normalized mapping and tier are exactly
those of the registered signature. -/
theorem validate_valid_eq (call : ProposedCall) (sig : ActionSignature)
    (norm : List (String × Value)) (t : Tier)
    (hsig : theRegistry.lookup call.action_name = Option.some sig)
    (hv : validate call theRegistry = ValidationResult.valid norm t) :
    norm = normalizeArgs sig.params call.arguments ∧ t = sig.tier := by
  unfold validate at hv
  rw [hsig] at hv
  by_cases he : (paramErrors sig.params call.arguments ++
      unexpectedErrors sig.params call.arguments).isEmpty
  · simp only [he, if_true] at hv
    injection hv with h1 h2
    exact ⟨h1.symm, h2.symm⟩
  · simp only [he, if_false] at hv
    cases hv

/-- With a nonempty error list validation returns Invalid with exactly the
collected errors. -/
theorem validate_invalid_eq (call : ProposedCall) (sig : ActionSignature)
    (hsig : theRegistry.lookup call.action_name = Option.some sig)
    (hne : (paramErrors sig.params call.arguments ++
      unexpectedErrors sig.params call.arguments).isEmpty = false) :
    validate call theRegistry = ValidationResult.invalid
      (paramErrors sig.params call.arguments ++
       unexpectedErrors sig.params call.arguments) := by
  unfold validate
  rw [hsig]
  simp only [hne]
  rfl

/-- A member makes the error list nonempty. -/
theorem isEmpty_false_of_mem (l : List ValidationError) (e : ValidationError)
    (h : e ∈ l) : l.isEmpty = false := by
  cases l with
  | nil => cases h
  | cons a t => rfl

/-- A successful find? in a prefix survives appending on the right. -/
theorem find?_append_some {α : Type} (l l2 : List α) (p : α → Bool) (a : α)
    (h : l.find? p = Option.some a) : (l ++ l2).find? p = Option.some a := by
  rw [List.find?_append, h]
  rfl

/-- find? commutes with an id-preserving map over the request table. -/
theorem find?_map_id_preserving (l : List AuthRequest) (g : AuthRequest → AuthRequest)
    (rid : Nat) (hg : ∀ r, (g r).id = r.id) :
    (l.map g).find? (fun r => r.id == rid) = (l.find? (fun r => r.id == rid)).map g := by
  rw [List.find?_map]
  have hcomp : ((fun r : AuthRequest => r.id == rid) ∘ g) =
      (fun r : AuthRequest => r.id == rid) := by
    funext q
    simp [Function.comp, hg q]
  rw [hcomp]

/-- Looking up any request after an id-preserving update of one id. -/
theorem findRequest_updateRequest (gs : GateState) (rid0 rid : Nat)
    (f : AuthRequest → AuthRequest) (hf : ∀ q, (f q).id = q.id) :
    findRequest (updateRequest gs rid0 f) rid =
      (findRequest gs rid).map (fun q => if q.id == rid0 then f q else q) := by
  unfold findRequest updateRequest
  apply find?_map_id_preserving
  intro q
  by_cases h : (q.id == rid0) = true
  · rw [if_pos h, hf]
  · rw [if_neg h]

/-- Two successful request lookups whose ids coincide return the same
request. -/
theorem findRequest_eq_of_id (gs : GateState) (rid rid0 : Nat) (r r0 : AuthRequest)
    (h1 : findRequest gs rid = Option.some r)
    (h0 : findRequest gs rid0 = Option.some r0)
    (hid : (r.id == rid0) = true) : r = r0 := by
  unfold findRequest at h1 h0
  have hr := List.find?_some h1
  have e1 : r.id = rid := eq_of_beq hr
  have e2 : r.id = rid0 := eq_of_beq hid
  rw [e1] at e2
  subst e2
  rw [h1] at h0
  exact Option.some.inj h0

/-- After an id-preserving update, a looked-up request is either untouched
or is the image of the original with a matching id. -/
theorem state_change_via_update (gs : GateState) (rid0 rid : Nat)
    (f : AuthRequest → AuthRequest) (hf : ∀ q, (f q).id = q.id)
    (r r2 : AuthRequest)
    (h1 : findRequest gs rid = Option.some r)
    (h2 : findRequest (updateRequest gs rid0 f) rid = Option.some r2) :
    r2 = r ∨ ((r.id == rid0) = true ∧ r2 = f r) := by
  rw [findRequest_updateRequest gs rid0 rid f hf, h1] at h2
  have h3 : (if (r.id == rid0) = true then f r else r) = r2 := Option.some.inj h2
  by_cases h : (r.id == rid0) = true
  · right
    refine ⟨h, ?_⟩
    rw [if_pos h] at h3
    exact h3.symm
  · left
    rw [if_neg h] at h3
    exact h3.symm

/-- submit never removes or alters an existing authorization request. -/
theorem submit_preserves_requests (gs : GateState) (now : Nat) (c : ProposedCall)
    (rid : Nat) (r : AuthRequest) (h : findRequest gs rid = Option.some r) :
    findRequest (submit gs now c).snd rid = Option.some r := by
  unfold submit
  cases validate c theRegistry with
  | invalid errs => exact h
  | valid norm tier =>
    cases tier with
    | observational => exact h
    | advisory => exact h
    | active => exact find?_append_some _ _ _ _ h
    | critical => exact find?_append_some _ _ _ _ h

/-- completeDispatch never touches the request table. -/
theorem completeDispatch_requests (gs : GateState) (now rid0 : Nat) :
    (completeDispatch gs now rid0).requests = gs.requests := by
  unfold completeDispatch
  split
  · rfl
  · split
    · split
      · split
        · rfl
        · rfl
      · rfl
      · rfl
    · rfl

/-- find? by id misses when every id in the table differs from the key. -/
theorem find?_id_none (l : List AuthRequest) (n : Nat)
    (h : ∀ r ∈ l, r.id ≠ n) : l.find? (fun r => r.id == n) = Option.none := by
  induction l with
  | nil => rfl
  | cons a t ih =>
    rw [List.find?_cons_of_neg (p := fun r : AuthRequest => r.id == n) _
        (fun hb => h a (List.mem_cons_self a t) (eq_of_beq hb))]
    exact ih (fun r hr => h r (List.mem_cons_of_mem _ hr))

/-- The safety invariant holds in the initial state. -/
theorem gateInv_init : gateInv gs_init := by
  refine ⟨⟨?_, ?_⟩, ?_, ?_⟩
  · intro r hr
    cases hr
  · intro o ho
    cases ho
  · intro rid r hfr
    cases hfr
  · intro o ho
    cases ho

/-- Terminalizing a pending request (deny, expire, cancel) and recording a
failed outcome preserves the safety invariant. -/
theorem gateInv_terminalize (gs : GateState) (now rid : Nat) (r0 : AuthRequest)
    (reason : FailReason) (f : AuthRequest → AuthRequest)
    (hr0 : findRequest gs rid = Option.some r0)
    (hguard : (r0.state == ReqState.pending) = true)
    (hfid : ∀ q, (f q).id = q.id)
    (hftier : ∀ q, (f q).tier = q.tier)
    (hfnapp : ∀ q, ((f q).state == ReqState.approved) = false)
    (hinv : gateInv gs) :
    gateInv (recordFailure (updateRequest gs rid f) now r0 reason) := by
  obtain ⟨⟨hreq, hout⟩, hacb, hccg⟩ := hinv
  have hr0mem : r0 ∈ gs.requests := List.mem_of_find?_eq_some hr0
  refine ⟨⟨?_, ?_⟩, ?_, ?_⟩
  · intro r2 hr2
    rcases List.mem_map.mp hr2 with ⟨r1, hr1, he⟩
    subst he
    by_cases hc : (r1.id == rid) = true
    · show (if (r1.id == rid) = true then f r1 else r1).id < gs.next_id
      rw [if_pos hc, hfid]
      exact hreq r1 hr1
    · show (if (r1.id == rid) = true then f r1 else r1).id < gs.next_id
      rw [if_neg hc]
      exact hreq r1 hr1
  · intro o ho
    rcases List.mem_append.mp ho with h | h
    · exact hout o h
    · rw [List.mem_singleton.mp h]
      exact hreq r0 hr0mem
  · intro rid2 r hfr hcrit happ
    have hfr2 : findRequest (updateRequest gs rid f) rid2 = Option.some r := hfr
    rw [findRequest_updateRequest gs rid rid2 f hfid] at hfr2
    cases hf1 : findRequest gs rid2 with
    | none =>
      rw [hf1] at hfr2
      cases hfr2
    | some r1 =>
      rw [hf1] at hfr2
      have he : (if (r1.id == rid) = true then f r1 else r1) = r := Option.some.inj hfr2
      by_cases hc : (r1.id == rid) = true
      · exfalso
        rw [if_pos hc] at he
        have hna := hfnapp r1
        rw [he, happ] at hna
        simp at hna
      · rw [if_neg hc] at he
        subst he
        exact hacb rid2 r1 hf1 hcrit happ
  · intro o ho hcomp r hfr hcrit
    rcases List.mem_append.mp ho with hoo | hoo
    · have hfr2 : findRequest (updateRequest gs rid f) o.call_id = Option.some r := hfr
      rw [findRequest_updateRequest gs rid o.call_id f hfid] at hfr2
      cases hf1 : findRequest gs o.call_id with
      | none =>
        rw [hf1] at hfr2
        cases hfr2
      | some r1 =>
        rw [hf1] at hfr2
        have he : (if (r1.id == rid) = true then f r1 else r1) = r := Option.some.inj hfr2
        by_cases hc : (r1.id == rid) = true
        · exfalso
          rw [if_pos hc] at he
          have hr1r0 : r1 = r0 := findRequest_eq_of_id gs o.call_id rid r1 r0 hf1 hr0 hc
          have hcrit1 : r1.tier = Tier.critical := by
            rw [← hftier r1, he]
            exact hcrit
          have hold := hccg o hoo hcomp r1 hf1 hcrit1
          have hpend : r0.state = ReqState.pending := eq_of_beq hguard
          rw [hr1r0, hpend] at hold
          cases hold.1
        · rw [if_neg hc] at he
          subst he
          exact hccg o hoo hcomp r1 hf1 hcrit
    · exfalso
      rw [List.mem_singleton.mp hoo] at hcomp
      cases hcomp

/-- Approving a pending request preserves the safety invariant, provided
an approved CRITICAL result carries a bound MFA proof. -/
theorem gateInv_approve (gs : GateState) (rid : Nat) (r0 : AuthRequest)
    (f : AuthRequest → AuthRequest)
    (hr0 : findRequest gs rid = Option.some r0)
    (hguard : (r0.state == ReqState.pending) = true)
    (hfid : ∀ q, (f q).id = q.id)
    (hftier : ∀ q, (f q).tier = q.tier)
    (hbound : (f r0).tier = Tier.critical → (f r0).state = ReqState.approved →
        ∃ p, (f r0).mfaProof = Option.some p ∧ mfaBound p r0.id = true)
    (hinv : gateInv gs) :
    gateInv (updateRequest gs rid f) := by
  obtain ⟨⟨hreq, hout⟩, hacb, hccg⟩ := hinv
  refine ⟨⟨?_, ?_⟩, ?_, ?_⟩
  · intro r2 hr2
    rcases List.mem_map.mp hr2 with ⟨r1, hr1, he⟩
    subst he
    by_cases hc : (r1.id == rid) = true
    · show (if (r1.id == rid) = true then f r1 else r1).id < gs.next_id
      rw [if_pos hc, hfid]
      exact hreq r1 hr1
    · show (if (r1.id == rid) = true then f r1 else r1).id < gs.next_id
      rw [if_neg hc]
      exact hreq r1 hr1
  · intro o ho
    exact hout o ho
  · intro rid2 r hfr hcrit happ
    have hfr2 : findRequest (updateRequest gs rid f) rid2 = Option.some r := hfr
    rw [findRequest_updateRequest gs rid rid2 f hfid] at hfr2
    cases hf1 : findRequest gs rid2 with
    | none =>
      rw [hf1] at hfr2
      cases hfr2
    | some r1 =>
      rw [hf1] at hfr2
      have he : (if (r1.id == rid) = true then f r1 else r1) = r := Option.some.inj hfr2
      by_cases hc : (r1.id == rid) = true
      · rw [if_pos hc] at he
        have hr1r0 : r1 = r0 := findRequest_eq_of_id gs rid2 rid r1 r0 hf1 hr0 hc
        rw [hr1r0] at he
        rcases hbound (by rw [he]; exact hcrit) (by rw [he]; exact happ) with ⟨p, hp, hb⟩
        refine ⟨p, by rw [← he]; exact hp, ?_⟩
        rw [← he, hfid, ← hr1r0]
        rw [hr1r0]
        exact hb
      · rw [if_neg hc] at he
        subst he
        exact hacb rid2 r1 hf1 hcrit happ
  · intro o ho hcomp r hfr hcrit
    have hfr2 : findRequest (updateRequest gs rid f) o.call_id = Option.some r := hfr
    rw [findRequest_updateRequest gs rid o.call_id f hfid] at hfr2
    cases hf1 : findRequest gs o.call_id with
    | none =>
      rw [hf1] at hfr2
      cases hfr2
    | some r1 =>
      rw [hf1] at hfr2
      have he : (if (r1.id == rid) = true then f r1 else r1) = r := Option.some.inj hfr2
      by_cases hc : (r1.id == rid) = true
      · exfalso
        rw [if_pos hc] at he
        have hr1r0 : r1 = r0 := findRequest_eq_of_id gs o.call_id rid r1 r0 hf1 hr0 hc
        have hcrit1 : r1.tier = Tier.critical := by
          rw [← hftier r1, he]
          exact hcrit
        have hold := hccg o ho hcomp r1 hf1 hcrit1
        have hpend : r0.state = ReqState.pending := eq_of_beq hguard
        rw [hr1r0, hpend] at hold
        cases hold.1
      · rw [if_neg hc] at he
        subst he
        exact hccg o ho hcomp r1 hf1 hcrit

/-- find? by id on a singleton table. -/
theorem find?_singleton_id (a : AuthRequest) (rid : Nat) :
    [a].find? (fun q => q.id == rid) =
      if (a.id == rid) = true then Option.some a else Option.none := by
  by_cases h : (a.id == rid) = true
  · rw [if_pos h]
    exact List.find?_cons_of_pos (p := fun q : AuthRequest => q.id == rid) _ h
  · rw [if_neg h]
    rw [List.find?_cons_of_neg (p := fun q : AuthRequest => q.id == rid) _ h]
    rfl

/-- Immediate dispatch of a cleared call preserves the safety invariant. -/
theorem gateInv_dispatchNow (gs : GateState) (now : Nat) (c : ProposedCall) (tier : Tier)
    (hinv : gateInv gs) : gateInv (dispatchNow gs now c tier).snd := by
  obtain ⟨⟨hreq, hout⟩, hacb, hccg⟩ := hinv
  refine ⟨⟨?_, ?_⟩, ?_, ?_⟩
  · intro r hr
    exact Nat.lt_succ_of_lt (hreq r hr)
  · intro o ho
    rcases List.mem_append.mp ho with h | h
    · exact Nat.lt_succ_of_lt (hout o h)
    · rw [List.mem_singleton.mp h]
      exact Nat.lt_succ_self _
  · intro rid r hfr hcrit happ
    exact hacb rid r hfr hcrit happ
  · intro o ho hcomp r hfr hcrit
    rcases List.mem_append.mp ho with h | h
    · exact hccg o h hcomp r hfr hcrit
    · exfalso
      rw [List.mem_singleton.mp h] at hfr
      have hnone : findRequest gs gs.next_id = Option.none :=
        find?_id_none gs.requests gs.next_id (fun q hq => Nat.ne_of_lt (hreq q hq))
      have hfr2 : findRequest gs gs.next_id = Option.some r := hfr
      rw [hnone] at hfr2
      cases hfr2

/-- Creating a pending request preserves the safety invariant. -/
theorem gateInv_createPending (gs : GateState) (now : Nat) (c : ProposedCall)
    (norm : List (String × Value)) (tier : Tier)
    (hinv : gateInv gs) : gateInv (createPending gs now c norm tier).snd := by
  obtain ⟨⟨hreq, hout⟩, hacb, hccg⟩ := hinv
  refine ⟨⟨?_, ?_⟩, ?_, ?_⟩
  · intro r hr
    rcases List.mem_append.mp hr with h | h
    · exact Nat.lt_succ_of_lt (hreq r h)
    · rw [List.mem_singleton.mp h]
      exact Nat.lt_succ_self _
  · intro o ho
    exact Nat.lt_succ_of_lt (hout o ho)
  · intro rid r hfr hcrit happ
    unfold findRequest createPending at hfr
    dsimp only at hfr
    rw [List.find?_append, find?_singleton_id] at hfr
    dsimp only at hfr
    cases hf1 : gs.requests.find? (fun q => q.id == rid) with
    | some r1 =>
      rw [hf1] at hfr
      have he : r1 = r := Option.some.inj hfr
      subst he
      exact hacb rid r1 hf1 hcrit happ
    | none =>
      rw [hf1] at hfr
      by_cases hc : (gs.next_id == rid) = true
      · rw [if_pos hc] at hfr
        have he := Option.some.inj hfr
        rw [← he] at happ
        exact ReqState.noConfusion happ
      · rw [if_neg hc] at hfr
        exact Option.noConfusion
          (show (Option.none : Option AuthRequest) = Option.some r from hfr)
  · intro o ho hcomp r hfr hcrit
    unfold findRequest createPending at hfr
    dsimp only at hfr
    rw [List.find?_append, find?_singleton_id] at hfr
    dsimp only at hfr
    cases hf1 : gs.requests.find? (fun q => q.id == o.call_id) with
    | some r1 =>
      rw [hf1] at hfr
      have he : r1 = r := Option.some.inj hfr
      subst he
      exact hccg o ho hcomp r1 hf1 hcrit
    | none =>
      rw [hf1] at hfr
      have hne : (gs.next_id == o.call_id) = false := by
        have hlt := hout o ho
        cases hb : gs.next_id == o.call_id
        · rfl
        · exfalso
          exact Nat.ne_of_gt hlt (eq_of_beq hb)
      rw [hne] at hfr
      exact Option.noConfusion
        (show (Option.none : Option AuthRequest) = Option.some r from hfr)

/-- submit preserves the safety invariant. -/
theorem gateInv_submit (gs : GateState) (now : Nat) (c : ProposedCall)
    (hinv : gateInv gs) : gateInv (submit gs now c).snd := by
  unfold submit
  cases validate c theRegistry with
  | invalid errs => exact hinv
  | valid norm tier =>
    cases tier with
    | observational => exact gateInv_dispatchNow gs now c _ hinv
    | advisory => exact gateInv_dispatchNow gs now c _ hinv
    | active => exact gateInv_createPending gs now c norm _ hinv
    | critical => exact gateInv_createPending gs now c norm _ hinv

/-- resolve preserves the safety invariant. -/
theorem gateInv_resolve (gs : GateState) (now rid : Nat) (d : Decision)
    (resolver : String) (proof : Option MfaProof)
    (hinv : gateInv gs) : gateInv (resolve gs now rid d resolver proof).snd := by
  unfold resolve
  cases hr0 : findRequest gs rid with
  | none => exact hinv
  | some r0 =>
    dsimp only
    by_cases hguard : (r0.state == ReqState.pending) = true
    · rw [if_pos hguard]
      cases d with
      | deny =>
        exact gateInv_terminalize gs now rid r0 FailReason.approvalDenied _
          hr0 hguard (fun q => rfl) (fun q => rfl) (fun q => rfl) hinv
      | approve =>
        cases htier : r0.tier with
        | critical =>
          dsimp only
          cases proof with
          | none => exact hinv
          | some p =>
            dsimp only
            by_cases hb : (mfaBound p r0.id && mfaFresh p now) = true
            · rw [if_pos hb]
              refine gateInv_approve gs rid r0 _ hr0 hguard
                (fun q => rfl) (fun q => rfl) ?_ hinv
              intro hcrit happ
              exact ⟨p, rfl, (Bool.and_eq_true_iff.mp hb).1⟩
            · rw [if_neg hb]
              exact hinv
        | observational =>
          dsimp only
          refine gateInv_approve gs rid r0 _ hr0 hguard
            (fun q => rfl) (fun q => rfl) ?_ hinv
          intro hcrit happ
          exact absurd (htier ▸ hcrit) (by decide)
        | advisory =>
          dsimp only
          refine gateInv_approve gs rid r0 _ hr0 hguard
            (fun q => rfl) (fun q => rfl) ?_ hinv
          intro hcrit happ
          exact absurd (htier ▸ hcrit) (by decide)
        | active =>
          dsimp only
          refine gateInv_approve gs rid r0 _ hr0 hguard
            (fun q => rfl) (fun q => rfl) ?_ hinv
          intro hcrit happ
          exact absurd (htier ▸ hcrit) (by decide)
    · rw [if_neg hguard]
      exact hinv

/-- completeDispatch preserves the safety invariant. -/
theorem gateInv_completeDispatch (gs : GateState) (now rid : Nat)
    (hinv : gateInv gs) : gateInv (completeDispatch gs now rid) := by
  obtain ⟨⟨hreq, hout⟩, hacb, hccg⟩ := hinv
  unfold completeDispatch
  cases hr0 : findRequest gs rid with
  | none => exact ⟨⟨hreq, hout⟩, hacb, hccg⟩
  | some r0 =>
    dsimp only
    have h9 := List.find?_some
      (show List.find? (fun q : AuthRequest => q.id == rid) gs.requests = Option.some r0 from hr0)
    have hr0id : r0.id = rid := eq_of_beq h9
    have hr0mem : r0 ∈ gs.requests := List.mem_of_find?_eq_some hr0
    by_cases hg : (r0.state == ReqState.approved && !hasOutcome gs rid) = true
    · rw [if_pos hg]
      have happ0 : r0.state = ReqState.approved :=
        eq_of_beq (Bool.and_eq_true_iff.mp hg).1
      have hcommon : ∀ (st : OutcomeStatus),
          (st = OutcomeStatus.completed →
            r0.tier = Tier.critical →
            ∃ p, r0.mfaProof = Option.some p ∧ mfaBound p r0.id = true ∧
              mfaFresh p now = true) →
          gateInv { gs with
            dispatched := gs.dispatched ++ [r0.id],
            outcomes := gs.outcomes ++
              [{ call_id := r0.id, action_name := r0.call.action_name,
                 status := st, effective_at := now }] } := by
        intro st hst
        refine ⟨⟨hreq, ?_⟩, hacb, ?_⟩
        · intro o ho
          rcases List.mem_append.mp ho with h | h
          · exact hout o h
          · rw [List.mem_singleton.mp h]
            exact hreq r0 hr0mem
        · intro o ho hcomp r hfr hcrit
          rcases List.mem_append.mp ho with h | h
          · exact hccg o h hcomp r hfr hcrit
          · have hoe := List.mem_singleton.mp h
            subst hoe
            have hfr2 : findRequest gs r0.id = Option.some r := hfr
            rw [hr0id, hr0] at hfr2
            have he : r0 = r := Option.some.inj hfr2
            subst he
            rcases hst hcomp hcrit with ⟨p, hp, hbnd, hfrsh⟩
            exact ⟨happ0, p, hp, hbnd, hfrsh⟩
      have hcommonFail : ∀ (reason : FailReason),
          gateInv { gs with
            outcomes := gs.outcomes ++
              [{ call_id := r0.id, action_name := r0.call.action_name,
                 status := OutcomeStatus.failed reason, effective_at := now }] } := by
        intro reason
        refine ⟨⟨hreq, ?_⟩, hacb, ?_⟩
        · intro o ho
          rcases List.mem_append.mp ho with h | h
          · exact hout o h
          · rw [List.mem_singleton.mp h]
            exact hreq r0 hr0mem
        · intro o ho hcomp r hfr hcrit
          rcases List.mem_append.mp ho with h | h
          · exact hccg o h hcomp r hfr hcrit
          · rw [List.mem_singleton.mp h] at hcomp
            cases hcomp
      cases htier : r0.tier with
      | critical =>
        cases hpf : r0.mfaProof with
        | some p =>
          dsimp only
          by_cases hf : mfaFresh p now = true
          · rw [if_pos hf]
            refine hcommon OutcomeStatus.completed ?_
            intro hcomp hcrit
            rcases hacb rid r0 hr0 htier happ0 with ⟨p2, hp2, hb2⟩
            rw [hpf] at hp2
            have hpe : p2 = p := Option.some.inj hp2.symm
            rw [hpe] at hb2
            exact ⟨p, hpf, hb2, hf⟩
          · rw [if_neg hf]
            exact hcommonFail FailReason.staleAuthorization
        | none =>
          dsimp only
          exact hcommonFail FailReason.staleAuthorization
      | observational =>
        dsimp only
        refine hcommon OutcomeStatus.completed ?_
        intro hcomp hcrit
        exact absurd (htier ▸ hcrit) (by decide)
      | advisory =>
        dsimp only
        refine hcommon OutcomeStatus.completed ?_
        intro hcomp hcrit
        exact absurd (htier ▸ hcrit) (by decide)
      | active =>
        dsimp only
        refine hcommon OutcomeStatus.completed ?_
        intro hcomp hcrit
        exact absurd (htier ▸ hcrit) (by decide)
    · rw [if_neg hg]
      exact ⟨⟨hreq, hout⟩, hacb, hccg⟩

/-- expireRequest preserves the safety invariant. -/
theorem gateInv_expire (gs : GateState) (now rid : Nat)
    (hinv : gateInv gs) : gateInv (expireRequest gs now rid) := by
  unfold expireRequest
  cases hr0 : findRequest gs rid with
  | none => exact hinv
  | some r0 =>
    dsimp only
    by_cases hguard : (r0.state == ReqState.pending) = true
    · rw [if_pos hguard]
      exact gateInv_terminalize gs now rid r0 FailReason.approvalExpired _
        hr0 hguard (fun q => rfl) (fun q => rfl) (fun q => rfl) hinv
    · rw [if_neg hguard]
      exact hinv

/-- cancelRequest preserves the safety invariant. -/
theorem gateInv_cancel (gs : GateState) (now rid : Nat) (sess : String)
    (hinv : gateInv gs) : gateInv (cancelRequest gs now rid sess) := by
  unfold cancelRequest
  cases hr0 : findRequest gs rid with
  | none => exact hinv
  | some r0 =>
    dsimp only
    by_cases hguard : (r0.state == ReqState.pending) = true
    · rw [if_pos hguard]
      exact gateInv_terminalize gs now rid r0 FailReason.cancelledBySession _
        hr0 hguard (fun q => rfl) (fun q => rfl) (fun q => rfl) hinv
    · rw [if_neg hguard]
      exact hinv

/-- Every gatekeeper step preserves the safety invariant. -/
theorem gateInv_step (gs : GateState) (op : GateOp) (h : gateInv gs) :
    gateInv (applyOp gs op) := by
  cases op with
  | submitOp now c => exact gateInv_submit gs now c h
  | resolveOp now rid d resolver proof => exact gateInv_resolve gs now rid d resolver proof h
  | completeOp now rid => exact gateInv_completeDispatch gs now rid h
  | expireOp now rid => exact gateInv_expire gs now rid h
  | cancelOp now rid sess => exact gateInv_cancel gs now rid sess h

/-- The safety invariant holds along every run of gatekeeper steps. -/
theorem gateInv_runOps (ops : List GateOp) (gs : GateState) (h : gateInv gs) :
    gateInv (runOps ops gs) := by
  induction ops generalizing gs with
  | nil => exact h
  | cons op rest ih => exact ih (applyOp gs op) (gateInv_step gs op h)

/-- One serializer step keeps the in-flight keys pairwise distinct. -/
theorem factGate_step_nodup (s : FactGateState) (ev : FactGateEvent)
    (h : (s.in_flight.map Prod.snd).Nodup) :
    ((stepFactGate s ev).in_flight.map Prod.snd).Nodup := by
  cases ev with
  | beginDispatch cid key =>
    unfold stepFactGate
    dsimp only
    by_cases hb : (s.in_flight.any (fun q => q.snd == key)) = true
    · rw [if_pos hb]
      exact h
    · rw [if_neg hb]
      rw [List.map_cons]
      refine List.nodup_cons.mpr ⟨?_, h⟩
      intro hmem
      apply hb
      rcases List.mem_map.mp hmem with ⟨q, hq, he⟩
      exact List.any_eq_true.mpr ⟨q, hq, by rw [he]; exact beq_self_eq_true _⟩
  | endDispatch cid =>
    unfold stepFactGate
    dsimp only
    by_cases hb : (s.in_flight.any (fun q => q.fst == cid)) = true
    · rw [if_pos hb]
      exact ((List.filter_sublist _).map Prod.snd).nodup h
    · rw [if_neg hb]
      exact h

/-- C9: along every run of the per-key dispatch serializer, at most one
mutating dispatch per (tenant, layer, entity name) key is ever in flight,
so two concurrently-authorized calls on one key never interleave; and the
chosen policy — reject the second call with ConcurrentFactConflict — is
applied to every conflict. -/
theorem c9_fact_key_serialized (evs : List FactGateEvent) :
    ((runFactGate evs factGateInit).in_flight.map Prod.snd).Nodup ∧
    (∀ s cid key, key ∈ s.in_flight.map Prod.snd →
      stepFactGate s (FactGateEvent.beginDispatch cid key) =
        { s with rejected := s.rejected ++ [(cid, key)] }) := by
  constructor
  · have hrun : ∀ (l : List FactGateEvent) (s : FactGateState),
        (s.in_flight.map Prod.snd).Nodup →
        ((runFactGate l s).in_flight.map Prod.snd).Nodup := by
      intro l
      induction l with
      | nil =>
        intro s h
        exact h
      | cons ev rest ih =>
        intro s h
        exact ih _ (factGate_step_nodup s ev h)
    exact hrun evs factGateInit List.nodup_nil
  · intro s cid key hmem
    unfold stepFactGate
    dsimp only
    have hb : (s.in_flight.any (fun q => q.snd == key)) = true := by
      rcases List.mem_map.mp hmem with ⟨q, hq, he⟩
      exact List.any_eq_true.mpr ⟨q, hq, by rw [he]; exact beq_self_eq_true _⟩
    rw [if_pos hb]

/-- Witness for C9: two begin events on the same key leave distinct
in-flight keys, and the conflicting second begin is rejected. -/
theorem c9_fact_key_serialized_witness :
    ((runFactGate [FactGateEvent.beginDispatch 0 factKeyA,
        FactGateEvent.beginDispatch 1 factKeyA] factGateInit).in_flight.map Prod.snd).Nodup ∧
    stepFactGate fgsBusy (FactGateEvent.beginDispatch 1 factKeyA) =
      { fgsBusy with rejected := fgsBusy.rejected ++ [(1, factKeyA)] } :=
  ⟨(c9_fact_key_serialized [FactGateEvent.beginDispatch 0 factKeyA,
      FactGateEvent.beginDispatch 1 factKeyA]).1,
   (c9_fact_key_serialized []).2 fgsBusy 1 factKeyA (by simp [fgsBusy])⟩

/-- C10: the fixed declaration set contains exactly eleven actions with
pairwise-distinct names, partitioned into the four tiers exactly as in
type-stubs.py, and building the registry from it succeeds without
DuplicateAction. -/
theorem c10_declaration_set_shape :
    declarationSet.length = 11 ∧
    (declarationSet.map (fun s => s.name)).Nodup ∧
    (declarationSet.filter (fun s => s.tier == Tier.observational)).map (fun s => s.name) =
      ["calculate_ytd", "get_thresholds", "query_tax_law", "get_active_facts"] ∧
    (declarationSet.filter (fun s => s.tier == Tier.advisory)).map (fun s => s.name) =
      ["store_atomic_fact", "create_optimization_hint", "auto_tag_transaction"] ∧
    (declarationSet.filter (fun s => s.tier == Tier.active)).map (fun s => s.name) =
      ["reclassify_transaction", "create_project_draft"] ∧
    (declarationSet.filter (fun s => s.tier == Tier.critical)).map (fun s => s.name) =
      ["file_vat_registration", "submit_tax_return"] ∧
    buildRegistry declarationSet = Except.ok theRegistry := by
  refine ⟨rfl, ?_, rfl, rfl, rfl, rfl, rfl⟩
  decide

/-- C1: the Static Validator runs before any dispatch: a call failing
validation is answered Rejected with the validation errors and the
gatekeeper state is untouched (no authorization request, no dispatch, no
ActionOutcome), and any submit that dispatches anything had a Valid
validation result. -/
theorem c1_validator_gates_dispatch (call : ProposedCall) (errs : List ValidationError)
    (h : validate call theRegistry = ValidationResult.invalid errs) :
    (∀ gs now, submit gs now call = (SubmitResponse.rejected errs, gs)) ∧
    (∀ gs now c, (submit gs now c).snd.dispatched ≠ gs.dispatched →
       ∃ norm t, validate c theRegistry = ValidationResult.valid norm t) := by
  constructor
  · intro gs now
    unfold submit
    rw [h]
  · intro gs now c hd
    cases hv : validate c theRegistry with
    | invalid e =>
      exfalso
      apply hd
      unfold submit
      rw [hv]
    | valid norm t => exact ⟨norm, t, rfl⟩

/-- Witness for C1 at the call missing a required parameter. -/
theorem c1_validator_gates_dispatch_witness :
    submit gs_init 0 fileVatMissingCall =
      (SubmitResponse.rejected [ValidationError.missingParameter "business_details"], gs_init) :=
  (c1_validator_gates_dispatch fileVatMissingCall
    [ValidationError.missingParameter "business_details"] (by rfl)).1 gs_init 0

/-- C2: a proposed call whose action name is absent from the registry
validates to Invalid with UnknownAction, and submit answers Rejected
leaving the state unchanged, so no AuthorizationRequest and no
ActionOutcome is ever created for it. -/
theorem c2_unknown_action_rejected (call : ProposedCall)
    (h : theRegistry.lookup call.action_name = Option.none) :
    validate call theRegistry =
      ValidationResult.invalid [ValidationError.unknownAction call.action_name] ∧
    ∀ gs now, submit gs now call =
      (SubmitResponse.rejected [ValidationError.unknownAction call.action_name], gs) := by
  have hv : validate call theRegistry =
      ValidationResult.invalid [ValidationError.unknownAction call.action_name] := by
    unfold validate
    rw [h]
  refine ⟨hv, fun gs now => ?_⟩
  unfold submit
  rw [hv]

/-- Witness for C2 at an unregistered action name. -/
theorem c2_unknown_action_rejected_witness :
    validate unknownCall theRegistry =
      ValidationResult.invalid [ValidationError.unknownAction "delete_everything"] ∧
    submit gs_init 0 unknownCall =
      (SubmitResponse.rejected [ValidationError.unknownAction "delete_everything"], gs_init) :=
  ⟨(c2_unknown_action_rejected unknownCall (by rfl)).1,
   (c2_unknown_action_rejected unknownCall (by rfl)).2 gs_init 0⟩

/-- C3: along every run of the gatekeeper from the initial state, no
completed ActionOutcome exists for a CRITICAL call whose request is not
APPROVED with an MFA proof bound to the call id and fresh at the outcome
time; and an APPROVED CRITICAL request whose proof is stale at dispatch
time fails closed with StaleAuthorization and is never dispatched. -/
theorem c3_critical_mfa_gate (ops : List GateOp) :
    criticalCompletedGuard (runOps ops gs_init) ∧
    (∀ gs now rid r p,
      findRequest gs rid = Option.some r →
      r.tier = Tier.critical → r.state = ReqState.approved →
      r.mfaProof = Option.some p → hasOutcome gs rid = false →
      mfaFresh p now = false →
      completeDispatch gs now rid =
        { gs with outcomes := gs.outcomes ++
            [{ call_id := r.id, action_name := r.call.action_name,
               status := OutcomeStatus.failed FailReason.staleAuthorization,
               effective_at := now }] }) := by
  constructor
  · exact (gateInv_runOps ops gs_init gateInv_init).2.2
  · intro gs now rid r p hfr hcrit happ hproof hout hstale
    unfold completeDispatch
    rw [hfr]
    dsimp only
    have hg : (r.state == ReqState.approved && !hasOutcome gs rid) = true := by
      rw [happ, hout]
      rfl
    rw [if_pos hg, hcrit, hproof]
    dsimp only
    have hnf : ¬(mfaFresh p now = true) := by
      rw [hstale]
      exact Bool.false_ne_true
    rw [if_neg hnf]

/-- Witness for C3: a run submitting and approving the critical
file_vat_registration call keeps the guard, and dispatching it at time
1000 with the proof issued at time 10 fails closed with
StaleAuthorization. -/
theorem c3_critical_mfa_gate_witness :
    criticalCompletedGuard (runOps
      [GateOp.submitOp 0 fileVatCall,
       GateOp.resolveOp 10 0 Decision.approve "op" (Option.some proofC3)] gs_init) ∧
    completeDispatch gsCriticalApproved 1000 0 =
      { gsCriticalApproved with outcomes := gsCriticalApproved.outcomes ++
          [{ call_id := 0, action_name := "file_vat_registration",
             status := OutcomeStatus.failed FailReason.staleAuthorization,
             effective_at := 1000 }] } :=
  ⟨(c3_critical_mfa_gate
      [GateOp.submitOp 0 fileVatCall,
       GateOp.resolveOp 10 0 Decision.approve "op" (Option.some proofC3)]).1,
   (c3_critical_mfa_gate []).2 gsCriticalApproved 1000 0 reqCriticalApproved proofC3
     (by rfl) (by rfl) (by rfl) (by rfl) (by rfl) (by rfl)⟩

/-- C4: request states change monotonically under every gatekeeper step —
an existing request either keeps its state or moves from PENDING to a
terminal state, never the reverse — and a resolution signal for an
already-terminal request answers AlreadyResolved and leaves the state
unchanged. -/
theorem c4_monotonic_states (gs : GateState) (op : GateOp) (rid : Nat)
    (r r2 : AuthRequest)
    (h1 : findRequest gs rid = Option.some r)
    (h2 : findRequest (applyOp gs op) rid = Option.some r2) :
    (r2.state = r.state ∨ (r.state = ReqState.pending ∧ r2.state.terminal = true)) ∧
    (r.state.terminal = true →
      ∀ now d resolver proof, resolve gs now rid d resolver proof =
        (ResolveResponse.alreadyResolved, gs)) := by
  constructor
  · cases op with
    | submitOp now c =>
      have h3 := submit_preserves_requests gs now c rid r h1
      have h4 : findRequest (submit gs now c).snd rid = Option.some r2 := h2
      rw [h3] at h4
      exact Or.inl (by rw [← Option.some.inj h4])
    | completeOp now rid0 =>
      have hreq : findRequest (completeDispatch gs now rid0) rid = findRequest gs rid := by
        unfold findRequest
        rw [completeDispatch_requests]
      have h4 : findRequest (completeDispatch gs now rid0) rid = Option.some r2 := h2
      rw [hreq, h1] at h4
      exact Or.inl (by rw [← Option.some.inj h4])
    | resolveOp now rid0 d resolver proof =>
      have h4 : findRequest (resolve gs now rid0 d resolver proof).snd rid = Option.some r2 := h2
      unfold resolve at h4
      cases hr0 : findRequest gs rid0 with
      | none =>
        rw [hr0] at h4
        dsimp only at h4
        rw [h1] at h4
        exact Or.inl (by rw [← Option.some.inj h4])
      | some r0 =>
        rw [hr0] at h4
        dsimp only at h4
        by_cases hguard : (r0.state == ReqState.pending) = true
        · rw [if_pos hguard] at h4
          have hbranch : ∀ (f : AuthRequest → AuthRequest), (∀ q, (f q).id = q.id) →
              (f r).state.terminal = true →
              findRequest (updateRequest gs rid0 f) rid = Option.some r2 →
              (r2.state = r.state ∨ (r.state = ReqState.pending ∧ r2.state.terminal = true)) := by
            intro f hf hterm hfind
            rcases state_change_via_update gs rid0 rid f hf r r2 h1 hfind with he | ⟨hid, he⟩
            · exact Or.inl (by rw [he])
            · right
              have hrr0 : r = r0 := findRequest_eq_of_id gs rid rid0 r r0 h1 hr0 hid
              refine ⟨?_, ?_⟩
              · rw [hrr0]
                exact eq_of_beq hguard
              · rw [he]
                exact hterm
          cases d with
          | deny =>
            dsimp only at h4
            exact hbranch _ (by intro q; rfl) (by rfl) h4
          | approve =>
            dsimp only at h4
            cases htier : r0.tier with
            | critical =>
              rw [htier] at h4
              dsimp only at h4
              cases proof with
              | none =>
                dsimp only at h4
                rw [h1] at h4
                exact Or.inl (by rw [← Option.some.inj h4])
              | some p =>
                dsimp only at h4
                by_cases hb : (mfaBound p r0.id && mfaFresh p now) = true
                · rw [if_pos hb] at h4
                  exact hbranch _ (by intro q; rfl) (by rfl) h4
                · rw [if_neg hb] at h4
                  rw [h1] at h4
                  exact Or.inl (by rw [← Option.some.inj h4])
            | observational =>
              rw [htier] at h4
              dsimp only at h4
              exact hbranch _ (by intro q; rfl) (by rfl) h4
            | advisory =>
              rw [htier] at h4
              dsimp only at h4
              exact hbranch _ (by intro q; rfl) (by rfl) h4
            | active =>
              rw [htier] at h4
              dsimp only at h4
              exact hbranch _ (by intro q; rfl) (by rfl) h4
        · rw [if_neg hguard] at h4
          rw [h1] at h4
          exact Or.inl (by rw [← Option.some.inj h4])
    | expireOp now rid0 =>
      have h4 : findRequest (expireRequest gs now rid0) rid = Option.some r2 := h2
      unfold expireRequest at h4
      cases hr0 : findRequest gs rid0 with
      | none =>
        rw [hr0] at h4
        dsimp only at h4
        rw [h1] at h4
        exact Or.inl (by rw [← Option.some.inj h4])
      | some r0 =>
        rw [hr0] at h4
        dsimp only at h4
        by_cases hguard : (r0.state == ReqState.pending) = true
        · rw [if_pos hguard] at h4
          rcases state_change_via_update gs rid0 rid _ (by intro q; rfl) r r2 h1 h4 with he | ⟨hid, he⟩
          · exact Or.inl (by rw [he])
          · right
            have hrr0 : r = r0 := findRequest_eq_of_id gs rid rid0 r r0 h1 hr0 hid
            exact ⟨by rw [hrr0]; exact eq_of_beq hguard, by rw [he]; rfl⟩
        · rw [if_neg hguard] at h4
          rw [h1] at h4
          exact Or.inl (by rw [← Option.some.inj h4])
    | cancelOp now rid0 sess =>
      have h4 : findRequest (cancelRequest gs now rid0 sess) rid = Option.some r2 := h2
      unfold cancelRequest at h4
      cases hr0 : findRequest gs rid0 with
      | none =>
        rw [hr0] at h4
        dsimp only at h4
        rw [h1] at h4
        exact Or.inl (by rw [← Option.some.inj h4])
      | some r0 =>
        rw [hr0] at h4
        dsimp only at h4
        by_cases hguard : (r0.state == ReqState.pending) = true
        · rw [if_pos hguard] at h4
          rcases state_change_via_update gs rid0 rid _ (by intro q; rfl) r r2 h1 h4 with he | ⟨hid, he⟩
          · exact Or.inl (by rw [he])
          · right
            have hrr0 : r = r0 := findRequest_eq_of_id gs rid rid0 r r0 h1 hr0 hid
            exact ⟨by rw [hrr0]; exact eq_of_beq hguard, by rw [he]; rfl⟩
        · rw [if_neg hguard] at h4
          rw [h1] at h4
          exact Or.inl (by rw [← Option.some.inj h4])
  · intro ht now d resolver proof
    have hp : (r.state == ReqState.pending) = false := by
      cases hs : r.state
      · rw [hs] at ht
        cases ht
      · rfl
      · rfl
      · rfl
    unfold resolve
    rw [h1]
    dsimp only
    rw [hp]
    rfl

/-- Witness for C4: re-resolving the already-denied request changes
nothing and reports AlreadyResolved. -/
theorem c4_monotonic_states_witness :
    resolve gsDenied 5 0 Decision.approve "op2" Option.none =
      (ResolveResponse.alreadyResolved, gsDenied) :=
  (c4_monotonic_states gsDenied (GateOp.resolveOp 5 0 Decision.approve "op2" Option.none)
    0 reqDenied reqDenied (by rfl) (by rfl)).2 (by rfl) 5 Decision.approve "op2" Option.none

/-- C5: the tier returned with a Valid result is exactly the registered
signature tier, never derived from call content; the reclassify scenario
is ACTIVE, submit answers pending, approval then dispatch completes the
call, and denial yields a failed ApprovalDenied outcome. -/
theorem c5_tier_equals_signature (call : ProposedCall) (sig : ActionSignature)
    (norm : List (String × Value)) (t : Tier)
    (hsig : theRegistry.lookup call.action_name = Option.some sig)
    (hv : validate call theRegistry = ValidationResult.valid norm t) :
    t = sig.tier ∧
    validate reclassifyCall theRegistry = ValidationResult.valid reclassifyNorm Tier.active ∧
    (submit gs_init 0 reclassifyCall).fst = SubmitResponse.pending 0 Tier.active ∧
    outcomeStatusOf
      (completeDispatch (resolve gsReclassify 1 0 Decision.approve "op" Option.none).snd 2 0) 0 =
      Option.some OutcomeStatus.completed ∧
    outcomeStatusOf (resolve gsReclassify 1 0 Decision.deny "op" Option.none).snd 0 =
      Option.some (OutcomeStatus.failed FailReason.approvalDenied) :=
  ⟨(validate_valid_eq call sig norm t hsig hv).2, rfl, rfl, rfl, rfl⟩

/-- Witness for C5 at the reclassify scenario call. -/
theorem c5_tier_equals_signature_witness :
    Tier.active = reclassifySig.tier ∧
    validate reclassifyCall theRegistry = ValidationResult.valid reclassifyNorm Tier.active ∧
    (submit gs_init 0 reclassifyCall).fst = SubmitResponse.pending 0 Tier.active ∧
    outcomeStatusOf
      (completeDispatch (resolve gsReclassify 1 0 Decision.approve "op" Option.none).snd 2 0) 0 =
      Option.some OutcomeStatus.completed ∧
    outcomeStatusOf (resolve gsReclassify 1 0 Decision.deny "op" Option.none).snd 0 =
      Option.some (OutcomeStatus.failed FailReason.approvalDenied) :=
  c5_tier_equals_signature reclassifyCall reclassifySig reclassifyNorm Tier.active
    (by rfl) (by rfl)

/-- C6: a supplied argument whose name is not declared for the registered
action makes validation fail with UnexpectedParameter carrying that name;
undeclared fields are never passed through. -/
theorem c6_unexpected_parameter_rejected (call : ProposedCall) (sig : ActionSignature)
    (n : String) (v : Value)
    (hsig : theRegistry.lookup call.action_name = Option.some sig)
    (hmem : (n, v) ∈ call.arguments)
    (hundecl : sig.params.find? (fun p => p.name == n) = Option.none) :
    ∃ errs, validate call theRegistry = ValidationResult.invalid errs ∧
      ValidationError.unexpectedParameter n ∈ errs ∧
      ∀ gs now, submit gs now call = (SubmitResponse.rejected errs, gs) := by
  have hm2 : ValidationError.unexpectedParameter n ∈
      paramErrors sig.params call.arguments ++ unexpectedErrors sig.params call.arguments :=
    List.mem_append_right _ (mem_unexpectedErrors sig.params call.arguments n v hmem hundecl)
  have hne := isEmpty_false_of_mem _ _ hm2
  have hv := validate_invalid_eq call sig hsig hne
  refine ⟨_, hv, hm2, fun gs now => ?_⟩
  unfold submit
  rw [hv]

/-- Witness for C6: a reclassify call carrying an undeclared field. -/
theorem c6_unexpected_parameter_rejected_witness :
    ∃ errs, validate reclassifyExtraCall theRegistry = ValidationResult.invalid errs ∧
      ValidationError.unexpectedParameter "force" ∈ errs ∧
      ∀ gs now, submit gs now reclassifyExtraCall = (SubmitResponse.rejected errs, gs) :=
  c6_unexpected_parameter_rejected reclassifyExtraCall reclassifySig "force" (Value.bool true)
    (by rfl) (by simp [reclassifyExtraCall]) (by rfl)

/-- C7: omitting a required parameter of a registered action makes
validation fail with MissingParameter carrying that name, and submit
answers Rejected with the gatekeeper state untouched, so no side effect of
any kind occurs. -/
theorem c7_missing_parameter_rejected (call : ProposedCall) (sig : ActionSignature) (p : Param)
    (hsig : theRegistry.lookup call.action_name = Option.some sig)
    (hp : p ∈ sig.params) (hreq : p.required = true)
    (habs : lookupArg call.arguments p.name = Option.none) :
    ∃ errs, validate call theRegistry = ValidationResult.invalid errs ∧
      ValidationError.missingParameter p.name ∈ errs ∧
      ∀ gs now, submit gs now call = (SubmitResponse.rejected errs, gs) := by
  have hm2 : ValidationError.missingParameter p.name ∈
      paramErrors sig.params call.arguments ++ unexpectedErrors sig.params call.arguments :=
    List.mem_append_left _ (mem_paramErrors_missing sig.params call.arguments p hp hreq habs)
  have hne := isEmpty_false_of_mem _ _ hm2
  have hv := validate_invalid_eq call sig hsig hne
  refine ⟨_, hv, hm2, fun gs now => ?_⟩
  unfold submit
  rw [hv]

/-- Witness for C7: file_vat_registration without business_details. -/
theorem c7_missing_parameter_rejected_witness :
    ∃ errs, validate fileVatMissingCall theRegistry = ValidationResult.invalid errs ∧
      ValidationError.missingParameter "business_details" ∈ errs ∧
      ∀ gs now, submit gs now fileVatMissingCall = (SubmitResponse.rejected errs, gs) :=
  c7_missing_parameter_rejected fileVatMissingCall fileVatSig
    (reqP "business_details" SemType.dict)
    (by rfl) (by simp [fileVatSig]) (by rfl) (by rfl)

/-- C8: every declared parameter with a default is present in the
normalized mapping of a Valid result, carrying the supplied value or the
declared default when omitted; a store_atomic_fact call without confidence
normalizes to confidence 1.0 and a get_active_facts call without layer
normalizes to layer None. -/
theorem c8_defaults_normalized (call : ProposedCall) (sig : ActionSignature)
    (norm : List (String × Value)) (t : Tier) (p : Param) (d : Value)
    (hsig : theRegistry.lookup call.action_name = Option.some sig)
    (hv : validate call theRegistry = ValidationResult.valid norm t)
    (hp : p ∈ sig.params) (hd : p.default = Option.some d) :
    (p.name, (lookupArg call.arguments p.name).getD d) ∈ norm ∧
    validate storeFactCall theRegistry = ValidationResult.valid
      [("user_id", Value.str "t1"), ("layer", Value.str "area"),
       ("entity_name", Value.str "vat_status"), ("fact_content", Value.str "registered"),
       ("confidence", Value.float 1)] Tier.advisory ∧
    validate getFactsCall theRegistry = ValidationResult.valid
      [("user_id", Value.str "t1"), ("layer", Value.none)] Tier.observational := by
  refine ⟨?_, rfl, rfl⟩
  rw [(validate_valid_eq call sig norm t hsig hv).1]
  exact mem_normalizeArgs sig.params call.arguments p d hp hd

/-- Witness for C8: the omitted layer of the get_active_facts scenario is
normalized to None. -/
theorem c8_defaults_normalized_witness :
    (("layer", Value.none) ∈ [("user_id", Value.str "t1"), ("layer", Value.none)] ∧
     validate storeFactCall theRegistry = ValidationResult.valid
      [("user_id", Value.str "t1"), ("layer", Value.str "area"),
       ("entity_name", Value.str "vat_status"), ("fact_content", Value.str "registered"),
       ("confidence", Value.float 1)] Tier.advisory ∧
     validate getFactsCall theRegistry = ValidationResult.valid
      [("user_id", Value.str "t1"), ("layer", Value.none)] Tier.observational) :=
  c8_defaults_normalized getFactsCall getFactsSig
    [("user_id", Value.str "t1"), ("layer", Value.none)] Tier.observational
    (optP "layer" SemType.string Value.none) Value.none
    (by rfl) (by rfl) (by simp [getFactsSig]) (by rfl)

end Prism
